import Mathlib

/-
Verification of the uptime-monitor core (src/app.py, class UptimeMonitor)
against its natural-language specification.

The embedding models:
  - `MonitoredSite`            : the dataclass MonitoredSite (app.py lines 9-14)
  - `MonitorState`             : the fields monitored_sites / status_data (lines 17-19)
  - `update_site_status`       : the ledger update (lines 63-102)
  - `check_site_outcome`       : the probe outcome policy of check_site (lines 48-61)
  - `monitorDispatch`          : the per-cycle dispatch filter of monitor_sites (lines 36-38)
  - `nextSleep`                : the sleep computation of monitor_sites (lines 42-46)
  - `handle_add_site`          : lines 1237-1248
  - `handle_site_details`      : lines 1280-1295
  - `handle_delete_site`       : lines 1310-1318
  - `handle_check_now`         : lines 1320-1329

Python floats are modelled as rationals; Python's round(x, 2) (round half to
even) is modelled by `round2`.  Python's dict keyed by url is modelled as an
association list with `lookupSD` / `insertSD` / `eraseSD`.
-/

set_option autoImplicit false

namespace UpApi

/-- The MonitoredSite dataclass (app.py lines 9-14). -/
structure MonitoredSite where
  name : String
  url : String
  interval : Nat
  paused : Bool
deriving DecidableEq, Repr

/-- A probe outcome status, the two values of the string field in app.py. -/
inductive Status where
  | up
  | down
deriving DecidableEq, Repr

/-- Boolean test mirroring the comparison with the string "up" in app.py. -/
def Status.isUp : Status → Bool
  | Status.up => true
  | Status.down => false

/-- Rendering of a status as the string stored by app.py. -/
def statusStr : Status → String
  | Status.up => "up"
  | Status.down => "down"

/-- One element of record['history'] (app.py lines 80-84); timestamps are
opaque naturals. -/
structure HistoryEntry where
  time : Nat
  status : Status
  response_time : ℚ
deriving DecidableEq, Repr

/-- The per-url dict stored in self.status_data (app.py lines 64-77). -/
structure SiteRecord where
  name : String
  history : List HistoryEntry
  uptime_percent : ℚ
  last_checked : Option Nat
  response_time : ℚ
  total_checks : Nat
  up_count : Nat
  down_count : Nat
  avg_response_time : ℚ
  last_status : Status
  paused : Bool
deriving DecidableEq, Repr

/-- The mutable state of UptimeMonitor: monitored_sites and status_data
(app.py lines 17-19).  The dict is an association list keyed by url. -/
structure MonitorState where
  monitored_sites : List MonitoredSite
  status_data : List (String × SiteRecord)
deriving DecidableEq, Repr

/-- Dict lookup for status_data. -/
def lookupSD : List (String × SiteRecord) → String → Option SiteRecord
  | [], _ => none
  | (k, v) :: rest, url => if k = url then some v else lookupSD rest url

/-- Dict update/insert for status_data (Python dict assignment). -/
def insertSD : List (String × SiteRecord) → String → SiteRecord → List (String × SiteRecord)
  | [], url, r => [(url, r)]
  | (k, v) :: rest, url, r =>
      if k = url then (k, r) :: rest else (k, v) :: insertSD rest url r

/-- Dict deletion for status_data (Python del). -/
def eraseSD (l : List (String × SiteRecord)) (url : String) : List (String × SiteRecord) :=
  l.filter (fun p => !(p.1 == url))

/-- Round half to even to an integer, as Python's round does on exact values. -/
def roundHalfEven (q : ℚ) : ℤ :=
  let f := ⌊q⌋
  let r := q - (f : ℚ)
  if r < 1 / 2 then f
  else if 1 / 2 < r then f + 1
  else if f % 2 = 0 then f else f + 1

/-- Python's round(x, 2). -/
def round2 (q : ℚ) : ℚ := (roundHalfEven (q * 100) : ℚ) / 100

/-- The mean over the "up" entries of a history window, computed exactly as
app.py lines 101-102 do after every update. -/
def avgOf (h : List HistoryEntry) : ℚ :=
  let l := (h.filter (fun e => e.status.isUp)).map (fun e => e.response_time)
  if l = [] then 0 else round2 (l.sum / (l.length : ℚ))

/-- The fresh record created on first outcome for a url (app.py lines 64-77). -/
def initRecord (site : MonitoredSite) (status : Status) : SiteRecord :=
  { name := site.name
    history := []
    uptime_percent := 0
    last_checked := none
    response_time := 0
    total_checks := 0
    up_count := 0
    down_count := 0
    avg_response_time := 0
    last_status := status
    paused := site.paused }

/-- One ledger record operation: the arguments of update_site_status plus the
timestamp taken from datetime.now(). -/
structure RecOp where
  site : MonitoredSite
  status : Status
  response_time : ℚ
  now : Nat
deriving DecidableEq, Repr

/-- The history entry appended by a record operation (app.py lines 80-84). -/
def entryOf (op : RecOp) : HistoryEntry :=
  { time := op.now, status := op.status, response_time := op.response_time }

/-- The per-record body of update_site_status (app.py lines 79-102): append to
history, evict the oldest entry past 100, bump the cumulative counters, and
recompute uptime_percent and avg_response_time. -/
def applyOp (cur : Option SiteRecord) (op : RecOp) : SiteRecord :=
  let record := cur.getD (initRecord op.site op.status)
  let h1 := record.history ++ [entryOf op]
  let h2 := if 100 < h1.length then h1.tail else h1
  let total := record.total_checks + 1
  let upc := if op.status.isUp then record.up_count + 1 else record.up_count
  let downc := if op.status.isUp then record.down_count else record.down_count + 1
  { name := record.name
    history := h2
    uptime_percent := round2 (((upc : ℚ) / (total : ℚ)) * 100)
    last_checked := some op.now
    response_time := op.response_time
    total_checks := total
    up_count := upc
    down_count := downc
    avg_response_time := avgOf h2
    last_status := op.status
    paused := op.site.paused }

/-- update_site_status (app.py lines 63-102): mutates the status_data entry of
site.url through `applyOp`, creating it lazily on first outcome. -/
def update_site_status (st : MonitorState) (site : MonitoredSite) (status : Status)
    (response_time : ℚ) (now : Nat) : MonitorState :=
  { st with
    status_data :=
      insertSD st.status_data site.url
        (applyOp (lookupSD st.status_data site.url)
          { site := site, status := status, response_time := response_time, now := now }) }

/-- A sequence of record operations applied to the state in order. -/
def runOps (st : MonitorState) : List RecOp → MonitorState
  | [] => st
  | op :: rest => runOps (update_site_status st op.site op.status op.response_time op.now) rest

/-- Pure fold of the per-record body over one url's record operations. -/
def foldOps (cur : Option SiteRecord) : List RecOp → Option SiteRecord
  | [] => cur
  | op :: rest => foldOps (some (applyOp cur op)) rest

/-- The history entries appended by a list of record operations. -/
def entriesOf (l : List RecOp) : List HistoryEntry := l.map entryOf

/-- The trailing window of at most 100 entries of a full outcome sequence. -/
def histWindow (E : List HistoryEntry) : List HistoryEntry := E.drop (E.length - 100)

/-- What the network returned to one probe: either an HTTP response (any
status code, with the elapsed milliseconds measured before rounding), or an
exception inside the try block (connection failure, timeout, DNS failure). -/
inductive ProbeResult where
  | httpResponse (status : Nat) (elapsed_ms : ℚ)
  | failure
deriving DecidableEq, Repr

/-- The outcome policy of check_site (app.py lines 48-58): a response is up
exactly when its HTTP status is 200, and its recorded latency is the rounded
measured elapsed time whatever the status; any exception is absorbed into a
down outcome with latency 0.  The function is total: no error propagates. -/
def check_site_outcome : ProbeResult → Status × ℚ
  | ProbeResult.httpResponse s t => (if s = 200 then Status.up else Status.down, round2 t)
  | ProbeResult.failure => (Status.down, 0)

/-- check_site (app.py lines 48-61): compute the outcome and record it via
update_site_status, returning the status to the caller. -/
def check_site (st : MonitorState) (site : MonitoredSite) (pr : ProbeResult) (now : Nat) :
    MonitorState × Status :=
  let res := check_site_outcome pr
  (update_site_status st site res.1 res.2 now, res.1)

/-- The set of sites dispatched on one cycle of monitor_sites (app.py lines
36-38): every non-paused site, with no due-time test of any kind. -/
def monitorDispatch (st : MonitorState) : List MonitoredSite :=
  st.monitored_sites.filter (fun s => !s.paused)

/-- The sleep computation of monitor_sites (app.py lines 42-46).  When the
registry is non-empty the code takes min(...) over the intervals of the
non-paused sites; `none` models the ValueError that Python's min raises on an
empty sequence, which happens exactly when every site is paused. -/
def nextSleep (sites : List MonitoredSite) : Option Nat :=
  if sites.isEmpty then some 10
  else ((sites.filter (fun s => !s.paused)).map (fun s => s.interval)).min?

/-- handle_add_site (app.py lines 1237-1248): reject when any existing site
has the same url, returning the state unchanged with success false; otherwise
append a new non-paused site. -/
def handle_add_site (st : MonitorState) (name url : String) (interval : Nat) :
    MonitorState × Bool :=
  if st.monitored_sites.any (fun s => s.url == url) then (st, false)
  else
    ({ st with
        monitored_sites :=
          st.monitored_sites ++ [{ name := name, url := url, interval := interval, paused := false }] },
      true)

/-- The JSON object assembled by handle_site_details (app.py lines 1280-1295),
with last_checked none rendering the default string and last_status a string
so the default "unknown" is representable. -/
structure SiteDetails where
  name : String
  url : String
  last_status : String
  uptime_percent : ℚ
  avg_response_time : ℚ
  total_checks : Nat
  up_count : Nat
  down_count : Nat
  last_checked : Option Nat
  history : List HistoryEntry
  paused : Bool
deriving DecidableEq, Repr

/-- The paused value reported by handle_site_details (app.py line 1294):
first matching site's flag, defaulting to false. -/
def pausedOf (st : MonitorState) (url : String) : Bool :=
  ((st.monitored_sites.find? (fun s => s.url == url)).map (fun s => s.paused)).getD false

/-- handle_site_details (app.py lines 1280-1295): build the detail object from
the status_data entry when present, and from the per-field defaults of the
handler when absent.  The handler always responds with this object; there is
no branch producing a not-found response. -/
def handle_site_details (st : MonitorState) (url : String) : SiteDetails :=
  match lookupSD st.status_data url with
  | some d =>
      { name := d.name
        url := url
        last_status := statusStr d.last_status
        uptime_percent := d.uptime_percent
        avg_response_time := d.avg_response_time
        total_checks := d.total_checks
        up_count := d.up_count
        down_count := d.down_count
        last_checked := d.last_checked
        history := d.history
        paused := pausedOf st url }
  | none =>
      { name := url
        url := url
        last_status := "unknown"
        uptime_percent := 0
        avg_response_time := 0
        total_checks := 0
        up_count := 0
        down_count := 0
        last_checked := none
        history := []
        paused := pausedOf st url }

/-- The getTargetDetail interface of the spec realised by the source: the
handler of app.py lines 1280-1295 unconditionally returns a detail object, so
its Option-valued reading is `some` of that object for every url. -/
def getTargetDetail (st : MonitorState) (url : String) : Option SiteDetails :=
  some (handle_site_details st url)

/-- handle_delete_site (app.py lines 1310-1318): drop every site with the url
from the registry and delete the status_data entry. -/
def handle_delete_site (st : MonitorState) (url : String) : MonitorState :=
  { monitored_sites := st.monitored_sites.filter (fun s => !(s.url == url))
    status_data := eraseSD st.status_data url }

/-- handle_check_now (app.py lines 1320-1329): find the site with the url,
ignoring its paused flag, and run check_site on it; none models the
site-not-found error response. -/
def handle_check_now (st : MonitorState) (url : String) (pr : ProbeResult) (now : Nat) :
    Option (MonitorState × Status) :=
  match st.monitored_sites.find? (fun s => s.url == url) with
  | some site => some (check_site st site pr now)
  | none => none

/-- The total_checks counter currently stored for a url, 0 when absent. -/
def totalChecksOf (st : MonitorState) (url : String) : Nat :=
  ((lookupSD st.status_data url).map (fun r => r.total_checks)).getD 0

/-- The last_checked timestamp currently stored for a url. -/
def lastCheckedOf (st : MonitorState) (url : String) : Option Nat :=
  (lookupSD st.status_data url).bind (fun r => r.last_checked)

/-- Modelled from the spec: the due-target selection that claim C3 describes
(non-paused sites that were never checked or whose interval has elapsed since
last_checked).  Stated only for comparison with `monitorDispatch`; the source
loop contains no such due-time test. -/
def dueClaimTargets (st : MonitorState) (now : Nat) : List MonitoredSite :=
  st.monitored_sites.filter (fun s =>
    !s.paused &&
      match lastCheckedOf st s.url with
      | none => true
      | some t => decide (s.interval ≤ now - t))

/-- Concrete site used by the witnesses. -/
def wSite : MonitoredSite := { name := "a", url := "u", interval := 30, paused := false }

/-- Concrete two-record run used by the witnesses: one up outcome of latency
100 at time 1, then one down outcome at time 2. -/
def wOps : List RecOp :=
  [ { site := wSite, status := Status.up, response_time := 100, now := 1 },
    { site := wSite, status := Status.down, response_time := 0, now := 2 } ]

/-- The ledger record produced by `wOps`. -/
def wRec : SiteRecord :=
  { name := "a"
    history :=
      [ { time := 1, status := Status.up, response_time := 100 },
        { time := 2, status := Status.down, response_time := 0 } ]
    uptime_percent := 50
    last_checked := some 2
    response_time := 0
    total_checks := 2
    up_count := 1
    down_count := 1
    avg_response_time := 100
    last_status := Status.down
    paused := false }

/-- Concrete state for the C3 counterexample: one non-paused site with a
300-second interval whose ledger entry was last checked at time 1000. -/
def siteC3 : MonitoredSite := { name := "a", url := "u", interval := 300, paused := false }

/-- Ledger record for the C3 counterexample state. -/
def recC3 : SiteRecord := { wRec with last_checked := some 1000 }

/-- The C3 counterexample state. -/
def stC3 : MonitorState := { monitored_sites := [siteC3], status_data := [("u", recC3)] }

/-- Concrete state for the C8 witness: the url "u" is already registered. -/
def stC8 : MonitorState := { monitored_sites := [wSite], status_data := [("u", wRec)] }

/-- Concrete state for the C9 counterexample: a registered, checked site. -/
def stC9 : MonitorState := { monitored_sites := [wSite], status_data := [("u", wRec)] }

/-- Concrete state for the C10 witness: a single paused site, never checked. -/
def stC10 : MonitorState :=
  { monitored_sites := [{ name := "a", url := "u", interval := 30, paused := true }],
    status_data := [] }

/-- The invariant tying a stored ledger record to the full sequence E of
history entries ever appended for its url. -/
structure Models (r : SiteRecord) (E : List HistoryEntry) : Prop where
  hist : r.history = histWindow E
  total : r.total_checks = E.length
  split : r.total_checks = r.up_count + r.down_count
  uptime : r.uptime_percent = round2 (((r.up_count : ℚ) / (r.total_checks : ℚ)) * 100)
  avg : r.avg_response_time = avgOf r.history
  pos : 0 < E.length

theorem lookupSD_insertSD_self (l : List (String × SiteRecord)) (k : String) (v : SiteRecord) :
    lookupSD (insertSD l k v) k = some v := by
  induction l with
  | nil => simp [insertSD, lookupSD]
  | cons p rest ih =>
    by_cases h : p.1 = k
    · simp [insertSD, lookupSD, h]
    · simp [insertSD, lookupSD, h, ih]

theorem lookupSD_insertSD_ne (l : List (String × SiteRecord)) (k k2 : String) (v : SiteRecord)
    (h : k ≠ k2) : lookupSD (insertSD l k v) k2 = lookupSD l k2 := by
  induction l with
  | nil => simp [insertSD, lookupSD, h]
  | cons p rest ih =>
    by_cases hp : p.1 = k
    · simp [insertSD, lookupSD, hp, h]
    · by_cases hp2 : p.1 = k2
      · simp [insertSD, lookupSD, hp, hp2, Ne.symm h]
      · simp [insertSD, lookupSD, hp, hp2, ih]

theorem lookupSD_eraseSD_self (l : List (String × SiteRecord)) (url : String) :
    lookupSD (eraseSD l url) url = none := by
  induction l with
  | nil => simp [eraseSD, lookupSD]
  | cons p rest ih =>
    by_cases h : p.1 = url
    · simpa [eraseSD, h] using ih
    · simpa [eraseSD, List.filter_cons, h, lookupSD] using ih

theorem histWindow_length (E : List HistoryEntry) :
    (histWindow E).length = min E.length 100 := by
  simp only [histWindow, List.length_drop]
  omega

theorem histWindow_step (E : List HistoryEntry) (e : HistoryEntry) :
    histWindow (E ++ [e]) =
      (if 100 < (histWindow E ++ [e]).length then (histWindow E ++ [e]).tail
       else histWindow E ++ [e]) := by
  have hlen : (histWindow E ++ [e]).length = min E.length 100 + 1 := by
    simp [histWindow_length]
  by_cases hn : E.length ≤ 99
  · have h0 : E.length - 100 = 0 := by omega
    have h1 : E.length + 1 - 100 = 0 := by omega
    have hc : ¬ 100 < (histWindow E ++ [e]).length := by rw [hlen]; omega
    rw [if_neg hc]
    simp [histWindow, List.length_append, h0, h1]
  · have h100 : 100 ≤ E.length := by omega
    have hc : 100 < (histWindow E ++ [e]).length := by rw [hlen]; omega
    rw [if_pos hc, ← List.drop_one,
      List.drop_append_of_le_length (by rw [histWindow_length]; omega)]
    simp only [histWindow, List.drop_drop, List.length_append, List.length_singleton]
    rw [List.drop_append_of_le_length (by omega)]
    have he : E.length + 1 - 100 = E.length - 100 + 1 := by omega
    rw [he]

theorem models_applyOp (r : SiteRecord) (E : List HistoryEntry) (op : RecOp)
    (h : Models r E) : Models (applyOp (some r) op) (E ++ [entryOf op]) := by
  obtain ⟨h1, h2, h3, h4, h5, h6⟩ := h
  refine ⟨?_, ?_, ?_, ?_, ?_, ?_⟩
  · show (if 100 < (r.history ++ [entryOf op]).length then (r.history ++ [entryOf op]).tail
        else r.history ++ [entryOf op]) = histWindow (E ++ [entryOf op])
    rw [h1, histWindow_step]
  · show r.total_checks + 1 = (E ++ [entryOf op]).length
    simp [h2]
  · show r.total_checks + 1 = _
    cases hs : op.status <;> simp [applyOp, Status.isUp, hs] <;> omega
  · rfl
  · rfl
  · simp

theorem models_applyOp_none (op : RecOp) : Models (applyOp none op) [entryOf op] := by
  refine ⟨?_, ?_, ?_, ?_, ?_, ?_⟩
  · simp [applyOp, initRecord, histWindow]
  · rfl
  · cases hs : op.status <;> simp [applyOp, Status.isUp, hs, initRecord]
  · rfl
  · rfl
  · simp

theorem foldOps_some_models (l : List RecOp) :
    ∀ (r : SiteRecord) (E : List HistoryEntry), Models r E →
      ∃ r2, foldOps (some r) l = some r2 ∧ Models r2 (E ++ entriesOf l) := by
  induction l with
  | nil => intro r E h; exact ⟨r, rfl, by simpa [entriesOf] using h⟩
  | cons op rest ih =>
    intro r E h
    obtain ⟨r2, hr2, hm⟩ := ih (applyOp (some r) op) (E ++ [entryOf op]) (models_applyOp r E op h)
    refine ⟨r2, by simpa [foldOps] using hr2, ?_⟩
    simpa [entriesOf, List.append_assoc] using hm

theorem foldOps_none_models (l : List RecOp) (hl : l ≠ []) :
    ∃ r, foldOps none l = some r ∧ Models r (entriesOf l) := by
  cases l with
  | nil => exact absurd rfl hl
  | cons op rest =>
    obtain ⟨r2, h1, h2⟩ :=
      foldOps_some_models rest (applyOp none op) [entryOf op] (models_applyOp_none op)
    exact ⟨r2, by simpa [foldOps] using h1, by simpa [entriesOf] using h2⟩

theorem lookup_runOps (ops : List RecOp) :
    ∀ (st : MonitorState) (url : String),
      lookupSD (runOps st ops).status_data url =
        foldOps (lookupSD st.status_data url) (ops.filter (fun op => op.site.url == url)) := by
  induction ops with
  | nil => intro st url; simp [runOps, foldOps]
  | cons op rest ih =>
    intro st url
    by_cases hc : op.site.url = url
    · rw [runOps, ih]
      have hb : (op.site.url == url) = true := beq_iff_eq.mpr hc
      have hf : (op :: rest).filter (fun o => o.site.url == url)
          = op :: rest.filter (fun o => o.site.url == url) := by
        simp [List.filter_cons, hb]
      rw [hf, foldOps]
      simp only [update_site_status]
      rw [hc, lookupSD_insertSD_self]
    · rw [runOps, ih]
      have hb : (op.site.url == url) = false := by
        simp [hc]
      have hf : (op :: rest).filter (fun o => o.site.url == url)
          = rest.filter (fun o => o.site.url == url) := by
        simp [List.filter_cons, hb]
      rw [hf]
      simp only [update_site_status]
      rw [lookupSD_insertSD_ne _ _ _ _ hc]

theorem ledger_models (sites : List MonitoredSite) (ops : List RecOp) (url : String)
    (r : SiteRecord)
    (h : lookupSD (runOps { monitored_sites := sites, status_data := [] } ops).status_data url
        = some r) :
    Models r (entriesOf (ops.filter (fun op => op.site.url == url))) := by
  rw [lookup_runOps] at h
  simp only [lookupSD] at h
  rcases hfe : ops.filter (fun op => op.site.url == url) with _ | ⟨o, rest⟩
  · rw [hfe] at h
    simp [foldOps] at h
  · rw [hfe] at h
    obtain ⟨r2, h1, h2⟩ := foldOps_none_models (o :: rest) (by simp)
    rw [h1] at h
    cases h
    rw [hfe]
    exact h2

theorem applyOp_total (cur : Option SiteRecord) (op : RecOp) :
    (applyOp cur op).total_checks = ((cur.map (fun r => r.total_checks)).getD 0) + 1 := by
  cases cur <;> rfl

theorem wRec_lookup :
    lookupSD (runOps { monitored_sites := [wSite], status_data := [] } wOps).status_data "u"
      = some wRec := by
  norm_num [wSite, wOps, wRec, runOps, update_site_status, applyOp, insertSD, lookupSD,
    initRecord, entryOf, avgOf, round2, roundHalfEven, Status.isUp]

/-- C1: after any sequence of record operations starting from the empty
ledger, every stored entry has uptime_percent = round(100 * up_count /
total_checks, 2); an entry with total_checks = 0 would have uptime_percent 0;
and before the first recorded outcome (no entry at all) the detail endpoint
reports uptime_percent 0. -/
theorem uptime_percent_formula (sites : List MonitoredSite) (ops : List RecOp) (url : String) :
    (∀ r, lookupSD (runOps { monitored_sites := sites, status_data := [] } ops).status_data url
          = some r →
        r.uptime_percent = round2 (100 * (r.up_count : ℚ) / (r.total_checks : ℚ)) ∧
        (r.total_checks = 0 → r.uptime_percent = 0)) ∧
    (lookupSD (runOps { monitored_sites := sites, status_data := [] } ops).status_data url
          = none →
      (handle_site_details (runOps { monitored_sites := sites, status_data := [] } ops)
          url).uptime_percent = 0) := by
  constructor
  · intro r h
    have hm := ledger_models sites ops url r h
    constructor
    · rw [hm.uptime]
      congr 1
      ring
    · intro h0
      rw [hm.uptime, h0]
      norm_num [round2, roundHalfEven]
  · intro h
    simp [handle_site_details, h]

/-- Witness for the C1 theorem at a concrete two-record run. -/
theorem uptime_percent_formula_witness :
    lookupSD (runOps { monitored_sites := [wSite], status_data := [] } wOps).status_data "u"
        = some wRec ∧
    wRec.uptime_percent = round2 (100 * (wRec.up_count : ℚ) / (wRec.total_checks : ℚ)) :=
  ⟨wRec_lookup, ((uptime_percent_formula [wSite] wOps "u").1 wRec wRec_lookup).1⟩

/-- C5: after any sequence of record operations, the stored history holds at
most 100 outcomes and equals the trailing window of the full outcome sequence
for its url, i.e. eviction always removes the oldest entry (FIFO). -/
theorem history_bound_fifo (sites : List MonitoredSite) (ops : List RecOp) (url : String)
    (r : SiteRecord)
    (h : lookupSD (runOps { monitored_sites := sites, status_data := [] } ops).status_data url
        = some r) :
    r.history.length ≤ 100 ∧
    r.history =
      (entriesOf (ops.filter (fun op => op.site.url == url))).drop
        ((entriesOf (ops.filter (fun op => op.site.url == url))).length - 100) := by
  have hm := ledger_models sites ops url r h
  refine ⟨?_, hm.hist⟩
  rw [hm.hist, histWindow_length]
  omega

/-- Witness for the C5 theorem at a concrete two-record run. -/
theorem history_bound_fifo_witness :
    lookupSD (runOps { monitored_sites := [wSite], status_data := [] } wOps).status_data "u"
        = some wRec ∧
    wRec.history.length ≤ 100 :=
  ⟨wRec_lookup, (history_bound_fifo [wSite] wOps "u" wRec wRec_lookup).1⟩

/-- C6: after any sequence of record operations, the stored avg_response_time
is the rounded mean of the latencies of the up entries currently retained in
the bounded history window, and 0 when that window holds no up entry; down
entries and evicted entries do not contribute. -/
theorem avg_response_time_formula (sites : List MonitoredSite) (ops : List RecOp) (url : String)
    (r : SiteRecord)
    (h : lookupSD (runOps { monitored_sites := sites, status_data := [] } ops).status_data url
        = some r) :
    r.avg_response_time =
      (if ((r.history.filter (fun e => e.status.isUp)).map (fun e => e.response_time)) = [] then 0
       else
        round2
          ((((r.history.filter (fun e => e.status.isUp)).map (fun e => e.response_time)).sum)
            / ((((r.history.filter (fun e => e.status.isUp)).map
                (fun e => e.response_time)).length : ℚ)))) := by
  have hm := ledger_models sites ops url r h
  exact hm.avg

/-- Witness for the C6 theorem at a concrete two-record run. -/
theorem avg_response_time_formula_witness :
    lookupSD (runOps { monitored_sites := [wSite], status_data := [] } wOps).status_data "u"
        = some wRec ∧
    wRec.avg_response_time =
      (if ((wRec.history.filter (fun e => e.status.isUp)).map (fun e => e.response_time)) = []
       then 0
       else
        round2
          ((((wRec.history.filter (fun e => e.status.isUp)).map (fun e => e.response_time)).sum)
            / ((((wRec.history.filter (fun e => e.status.isUp)).map
                (fun e => e.response_time)).length : ℚ)))) :=
  ⟨wRec_lookup, avg_response_time_formula [wSite] wOps "u" wRec wRec_lookup⟩

/-- C7: after any sequence of record operations, total_checks = up_count +
down_count; total_checks is cumulative, equal to the number of record
operations ever applied to the url (never truncated by eviction); and the
history length is min(total_checks, 100). -/
theorem counters_cumulative (sites : List MonitoredSite) (ops : List RecOp) (url : String)
    (r : SiteRecord)
    (h : lookupSD (runOps { monitored_sites := sites, status_data := [] } ops).status_data url
        = some r) :
    r.total_checks = r.up_count + r.down_count ∧
    r.total_checks = (ops.filter (fun op => op.site.url == url)).length ∧
    r.history.length = min r.total_checks 100 := by
  have hm := ledger_models sites ops url r h
  refine ⟨hm.split, ?_, ?_⟩
  · rw [hm.total]
    simp [entriesOf]
  · rw [hm.hist, histWindow_length, hm.total]

/-- Witness for the C7 theorem at a concrete two-record run. -/
theorem counters_cumulative_witness :
    lookupSD (runOps { monitored_sites := [wSite], status_data := [] } wOps).status_data "u"
        = some wRec ∧
    wRec.total_checks = wRec.up_count + wRec.down_count :=
  ⟨wRec_lookup, (counters_cumulative [wSite] wOps "u" wRec wRec_lookup).1⟩

/-- C2 counterexample: an HTTP 404 response measured at 50 ms yields a down
outcome whose recorded latency is 50, not 0, refuting the claim that every
non-200 case records latency 0. -/
theorem check_site_latency_counterexample :
    (check_site_outcome (ProbeResult.httpResponse 404 50)).1 = Status.down ∧
    (check_site_outcome (ProbeResult.httpResponse 404 50)).2 = 50 ∧
    (50 : ℚ) ≠ 0 := by
  refine ⟨by norm_num [check_site_outcome],
    by norm_num [check_site_outcome, round2, roundHalfEven], by norm_num⟩

/-- C2 (amended): the outcome is up iff the HTTP status is exactly 200, and
the probe is total (all failure modes are absorbed): an exception yields a
down outcome with latency 0, while an HTTP response with a non-200 status
yields a down outcome carrying the rounded measured latency, not 0. -/
theorem check_site_policy (pr : ProbeResult) :
    ((check_site_outcome pr).1 = Status.up ↔ ∃ t, pr = ProbeResult.httpResponse 200 t) ∧
    check_site_outcome ProbeResult.failure = (Status.down, 0) ∧
    (∀ s t, s ≠ 200 →
      check_site_outcome (ProbeResult.httpResponse s t) = (Status.down, round2 t)) := by
  refine ⟨?_, rfl, ?_⟩
  · cases pr with
    | httpResponse s t =>
      by_cases hs : s = 200
      · subst hs
        simp [check_site_outcome]
      · simp [check_site_outcome, hs]
    | failure => simp [check_site_outcome]
  · intro s t hs
    simp [check_site_outcome, hs]

/-- Witness for the C2 amended theorem at HTTP status 404. -/
theorem check_site_policy_witness :
    (404 : Nat) ≠ 200 ∧
    check_site_outcome (ProbeResult.httpResponse 404 50) = (Status.down, round2 50) :=
  ⟨by norm_num,
    (check_site_policy (ProbeResult.httpResponse 404 50)).2.2 404 50 (by norm_num)⟩

/-- C3 counterexample: in state stC3 the single non-paused site has interval
300 and was last checked at time 1000; at time 1010 its interval has not
elapsed, so the claimed due set is empty, yet the loop dispatches it. -/
theorem dispatch_counterexample :
    monitorDispatch stC3 = [siteC3] ∧
    dueClaimTargets stC3 1010 = [] ∧
    monitorDispatch stC3 ≠ dueClaimTargets stC3 1010 := by
  have h1 : monitorDispatch stC3 = [siteC3] := by
    norm_num [monitorDispatch, stC3, siteC3]
  have h2 : dueClaimTargets stC3 1010 = [] := by
    norm_num [dueClaimTargets, stC3, siteC3, lastCheckedOf, lookupSD, recC3, wRec]
  refine ⟨h1, h2, ?_⟩
  rw [h1, h2]
  simp

/-- C3 (amended): the set of targets dispatched on a cycle of the scheduling
loop is exactly the set of non-paused targets — every non-paused target is
probed every cycle, regardless of its interval or last-checked time; paused
targets are excluded. -/
theorem dispatch_eq_non_paused (st : MonitorState) (s : MonitoredSite) :
    s ∈ monitorDispatch st ↔ s ∈ st.monitored_sites ∧ s.paused = false := by
  simp [monitorDispatch, List.mem_filter]

/-- C4: evaluation of the sleep computation of the scheduling loop: it yields
10 for an empty registry and the minimum non-paused interval when a non-paused
target exists, but for a non-empty registry whose targets are all paused it
yields none — modelling the ValueError raised by min over an empty sequence —
so the computation is not total, contradicting the claim; the claim matches
the spec's stated intent, so this is a defect of the code. -/
theorem next_sleep_all_paused_fails :
    nextSleep [] = some 10 ∧
    nextSleep [{ name := "a", url := "u", interval := 30, paused := false }] = some 30 ∧
    nextSleep [{ name := "a", url := "u", interval := 30, paused := true }] = none := by
  refine ⟨rfl, ?_, ?_⟩ <;> norm_num [nextSleep]

/-- C8: adding a target whose URL is already registered fails (success false)
and returns the state bit-for-bit unchanged: the registry and every existing
ledger entry are untouched. -/
theorem add_duplicate_rejected (st : MonitorState) (n url : String) (iv : Nat)
    (h : st.monitored_sites.any (fun s => s.url == url) = true) :
    handle_add_site st n url iv = (st, false) := by
  simp [handle_add_site, h]

/-- Witness for the C8 theorem on a state already containing url "u". -/
theorem add_duplicate_rejected_witness :
    (stC8.monitored_sites.any (fun s => s.url == "u") = true) ∧
    handle_add_site stC8 "b" "u" 60 = (stC8, false) :=
  ⟨by simp [stC8, wSite], add_duplicate_rejected stC8 "b" "u" 60 (by simp [stC8, wSite])⟩

/-- C9 counterexample: after deleting the registered and previously checked
url "u", the detail endpoint still returns a populated default detail object
(name = url, status "unknown", zero counters) — some record, never the
not-found (none) outcome the claim requires. -/
theorem delete_details_counterexample :
    getTargetDetail (handle_delete_site stC9 "u") "u" =
      some { name := "u", url := "u", last_status := "unknown", uptime_percent := 0,
             avg_response_time := 0, total_checks := 0, up_count := 0, down_count := 0,
             last_checked := none, history := [], paused := false } ∧
    getTargetDetail (handle_delete_site stC9 "u") "u" ≠ none := by
  constructor
  · norm_num [getTargetDetail, handle_delete_site, handle_site_details, stC9, wSite, wRec,
      eraseSD, lookupSD, pausedOf]
  · simp [getTargetDetail]

/-- C9 (amended): deleting a target removes both its registry entry and its
ledger entry; a subsequent site-details request, however, does not return
not-found — it returns the populated default detail object with name = url,
status "unknown" and zero counters. -/
theorem delete_removes_both (st : MonitorState) (url : String) :
    (handle_delete_site st url).monitored_sites.all (fun s => !(s.url == url)) = true ∧
    lookupSD (handle_delete_site st url).status_data url = none ∧
    handle_site_details (handle_delete_site st url) url =
      { name := url, url := url, last_status := "unknown", uptime_percent := 0,
        avg_response_time := 0, total_checks := 0, up_count := 0, down_count := 0,
        last_checked := none, history := [], paused := false } := by
  have hl : lookupSD (handle_delete_site st url).status_data url = none := by
    simp [handle_delete_site, lookupSD_eraseSD_self]
  have hf : ((handle_delete_site st url).monitored_sites.find? (fun s => s.url == url)) = none := by
    rw [List.find?_eq_none]
    intro x hx
    have hmem := (List.mem_filter.mp hx).2
    simp only [Bool.not_eq_true'] at hmem
    simp [hmem]
  refine ⟨?_, hl, ?_⟩
  · simp [handle_delete_site, List.all_eq_true, List.mem_filter]
  · simp [handle_site_details, hl, pausedOf, hf]

/-- C10: a check-now request on a paused target still performs the probe and
records its outcome — total_checks for its url increases by exactly 1 — even
though the paused target is excluded from the scheduled dispatch. -/
theorem check_now_ignores_paused (st : MonitorState) (url : String) (site : MonitoredSite)
    (pr : ProbeResult) (now : Nat)
    (hfind : st.monitored_sites.find? (fun s => s.url == url) = some site)
    (hp : site.paused = true) :
    (∃ st2 stat, handle_check_now st url pr now = some (st2, stat) ∧
        totalChecksOf st2 url = totalChecksOf st url + 1) ∧
    site ∉ monitorDispatch st := by
  have hb := List.find?_some (p := fun s : MonitoredSite => s.url == url) hfind
  have hurl : site.url = url := beq_iff_eq.mp hb
  constructor
  · refine ⟨(check_site st site pr now).1, (check_site st site pr now).2, ?_, ?_⟩
    · simp only [handle_check_now, hfind]
    · show totalChecksOf (update_site_status st site _ _ now) url = _
      simp only [totalChecksOf, update_site_status]
      rw [hurl, lookupSD_insertSD_self]
      simp [applyOp_total, totalChecksOf]
  · simp [monitorDispatch, List.mem_filter, hp]

/-- Witness for the C10 theorem: a single paused, never-checked site. -/
theorem check_now_ignores_paused_witness :
    (stC10.monitored_sites.find? (fun s => s.url == "u")
        = some { name := "a", url := "u", interval := 30, paused := true }) ∧
    ({ name := "a", url := "u", interval := 30, paused := true } : MonitoredSite).paused = true ∧
    ((∃ st2 stat, handle_check_now stC10 "u" ProbeResult.failure 7 = some (st2, stat) ∧
        totalChecksOf st2 "u" = totalChecksOf stC10 "u" + 1) ∧
      ({ name := "a", url := "u", interval := 30, paused := true } : MonitoredSite)
          ∉ monitorDispatch stC10) :=
  ⟨by simp [stC10], rfl,
    check_now_ignores_paused stC10 "u" _ ProbeResult.failure 7 (by simp [stC10]) rfl⟩

end UpApi
